import Mathlib

/-!
Verification of the Marvel character-database backend (`backend/server.py`)
against its natural-language specification.

The Python service is shallowly embedded: pure request-building code becomes
Lean functions, the favorites document store becomes explicit state passing
over a list of records, the `lru_cache` decorator becomes an explicit
least-recently-used cache state, and exception control flow becomes an
explicit result type (`PyResult`).  Machine words in the MD5 digest are
modelled as `Nat` with explicit `% 2^32`.
-/

namespace MarvelBackend

/-! ### MD5 (model of Python's `hashlib.md5(...).hexdigest()`)

The service signs every upstream request with
`md5(ts + private_key + public_key).hexdigest()`.  `hashlib` is library
code external to this repository; it is modelled here by a full MD5
implementation over byte lists so that the claimed digest shape
(128 bits, hex-encoded) is a provable property rather than an assumption. -/

def u32 : Nat := 4294967296

def add32 (a b : Nat) : Nat := (a + b) % u32

def not32 (a : Nat) : Nat := a ^^^ 4294967295

def rotl32 (x n : Nat) : Nat := ((x <<< n) ||| (x >>> (32 - n))) % u32

def md5K : Array Nat := #[3614090360, 3905402710, 606105819, 3250441966,
  4118548399, 1200080426, 2821735955, 4249261313, 1770035416, 2336552879,
  4294925233, 2304563134, 1804603682, 4254626195, 2792965006, 1236535329,
  4129170786, 3225465664, 643717713, 3921069994, 3593408605, 38016083,
  3634488961, 3889429448, 568446438, 3275163606, 4107603335, 1163531501,
  2850285829, 4243563512, 1735328473, 2368359562, 4294588738, 2272392833,
  1839030562, 4259657740, 2763975236, 1272893353, 4139469664, 3200236656,
  681279174, 3936430074, 3572445317, 76029189, 3654602809, 3873151461,
  530742520, 3299628645, 4096336452, 1126891415, 2878612391, 4237533241,
  1700485571, 2399980690, 4293915773, 2240044497, 1873313359, 4264355552,
  2734768916, 1309151649, 4149444226, 3174756917, 718787259, 3951481745]

def md5S : Array Nat := #[7, 12, 17, 22, 7, 12, 17, 22, 7, 12, 17, 22, 7, 12, 17, 22,
  5, 9, 14, 20, 5, 9, 14, 20, 5, 9, 14, 20, 5, 9, 14, 20,
  4, 11, 16, 23, 4, 11, 16, 23, 4, 11, 16, 23, 4, 11, 16, 23,
  6, 10, 15, 21, 6, 10, 15, 21, 6, 10, 15, 21, 6, 10, 15, 21]

/-- Little-endian 32-bit word read from a byte list at offset `i`. -/
def leWord (bytes : List Nat) (i : Nat) : Nat :=
  bytes.getD i 0 + 256 * bytes.getD (i + 1) 0 +
    65536 * bytes.getD (i + 2) 0 + 16777216 * bytes.getD (i + 3) 0

/-- One of the 64 MD5 rounds; `m g` is message word `g` of the current chunk. -/
def md5Round (m : Nat → Nat) (st : Nat × Nat × Nat × Nat) (i : Nat) :
    Nat × Nat × Nat × Nat :=
  let a := st.1
  let b := st.2.1
  let c := st.2.2.1
  let d := st.2.2.2
  let f :=
    if i < 16 then (b &&& c) ||| (not32 b &&& d)
    else if i < 32 then (d &&& b) ||| (not32 d &&& c)
    else if i < 48 then b ^^^ c ^^^ d
    else c ^^^ (b ||| not32 d)
  let g :=
    if i < 16 then i
    else if i < 32 then (5 * i + 1) % 16
    else if i < 48 then (3 * i + 5) % 16
    else (7 * i) % 16
  let f2 := (f + a + md5K.getD i 0 + m g) % u32
  (d, add32 b (rotl32 f2 (md5S.getD i 0)), b, c)

/-- Process one 64-byte chunk, updating the four-word state. -/
def md5Chunk (st : Nat × Nat × Nat × Nat) (chunk : List Nat) :
    Nat × Nat × Nat × Nat :=
  let m := fun g => leWord chunk (4 * g)
  let r := (List.range 64).foldl (md5Round m) st
  (add32 st.1 r.1, add32 st.2.1 r.2.1, add32 st.2.2.1 r.2.2.1,
    add32 st.2.2.2 r.2.2.2)

/-- Eight little-endian bytes of a 64-bit length value. -/
def le8 (n : Nat) : List Nat :=
  [n % 256, n / 256 % 256, n / 65536 % 256, n / 16777216 % 256,
   n / 4294967296 % 256, n / 1099511627776 % 256,
   n / 281474976710656 % 256, n / 72057594037927936 % 256]

/-- Four little-endian bytes of a 32-bit word. -/
def le4 (n : Nat) : List Nat :=
  [n % 256, n / 256 % 256, n / 65536 % 256, n / 16777216 % 256]

/-- MD5 padding: a `0x80` byte, zeros to 56 mod 64, then the bit length. -/
def md5Pad (msg : List Nat) : List Nat :=
  let padZeros := (119 - msg.length % 64) % 64
  msg ++ [128] ++ List.replicate padZeros 0 ++ le8 ((8 * msg.length) % 2 ^ 64)

/-- Split a byte list into 64-byte chunks (fuel bounds the recursion). -/
def chunks64Aux : Nat → List Nat → List (List Nat)
  | 0, _ => []
  | _, [] => []
  | fuel + 1, l => l.take 64 :: chunks64Aux fuel (l.drop 64)

/-- Split a byte list into 64-byte chunks. -/
def chunks64 (l : List Nat) : List (List Nat) := chunks64Aux l.length l

/-- The 16-byte MD5 digest of a byte list. -/
def md5Bytes (msg : List Nat) : List Nat :=
  let st := (chunks64 (md5Pad msg)).foldl md5Chunk
    (1732584193, 4023233417, 2562383102, 271733878)
  le4 st.1 ++ le4 st.2.1 ++ le4 st.2.2.1 ++ le4 st.2.2.2

def hexDigit (n : Nat) : Char :=
  if n < 10 then Char.ofNat (48 + n) else Char.ofNat (87 + n)

def byteHex (b : Nat) : List Char := [hexDigit (b / 16 % 16), hexDigit (b % 16)]

def bytesToHex (bs : List Nat) : String :=
  String.mk (bs.foldr (fun b acc => byteHex b ++ acc) [])

/-- UTF-8 encoding of one character as bytes (model of `str.encode()`). -/
def utf8Bytes (c : Char) : List Nat :=
  let n := c.toNat
  if n < 128 then [n]
  else if n < 2048 then [192 + n / 64, 128 + n % 64]
  else if n < 65536 then [224 + n / 4096, 128 + n / 64 % 64, 128 + n % 64]
  else [240 + n / 262144, 128 + n / 4096 % 64, 128 + n / 64 % 64, 128 + n % 64]

def strToBytes (s : String) : List Nat :=
  s.data.foldr (fun c acc => utf8Bytes c ++ acc) []

/-- Model of Python's `hashlib.md5(s.encode()).hexdigest()`. -/
def md5Hex (s : String) : String := bytesToHex (md5Bytes (strToBytes s))

/-- A lowercase hexadecimal digit, as produced by `hexdigest()`. -/
def isHexChar (c : Char) : Bool :=
  (48 ≤ c.toNat && c.toNat ≤ 57) || (97 ≤ c.toNat && c.toNat ≤ 102)

/-! ### Data model (`server.py`, "Models" section) -/

structure CharacterThumbnail where
  path : String
  extension : String
deriving DecidableEq, Repr

structure CharacterUrl where
  type : String
  url : String
deriving DecidableEq, Repr

structure Character where
  id : Int
  name : String
  description : String
  thumbnail : CharacterThumbnail
  resourceURI : String
  urls : List CharacterUrl
  comics_available : Int
  series_available : Int
  stories_available : Int
  events_available : Int
deriving DecidableEq, Repr

structure FavoriteCharacter where
  id : String
  user_id : String
  character_id : Int
  character_name : String
  added_at : Int
deriving DecidableEq, Repr

/-! ### Upstream response model

One raw record of the upstream JSON envelope, restricted to the fields
`server.py` reads.  A field accessed with `.get(..., default)` (or via a
defaulted nested `.get`) is an `Option`; `none` models an absent key. -/

structure RawCharacter where
  id : Int
  name : String
  description : Option String
  thumbnailPath : String
  thumbnailExtension : String
  resourceURI : String
  urls : Option (List CharacterUrl)
  comics_available : Option Int
  series_available : Option Int
  stories_available : Option Int
  events_available : Option Int
deriving DecidableEq, Repr

/-- The upstream response envelope `{code, status, data:{results, total, count, offset}}`. -/
structure Envelope where
  code : Int
  status : String
  results : List RawCharacter
  total : Int
  count : Int
  offset : Int
deriving DecidableEq, Repr

/-- Outcome of `requests.get(...)` followed by `raise_for_status()`:
either a parsed envelope, or a `requests.exceptions.RequestException`
(timeout, connection failure, or bad HTTP status). -/
inductive Transport where
  | ok (resp : Envelope)
  | requestError (msg : String)
deriving DecidableEq, Repr

/-- Outcome of evaluating a Python expression that may raise: a value, a
raised `HTTPException(status_code, detail)`, or any other raised exception. -/
inductive PyResult (α : Type) where
  | ok (val : α)
  | httpExc (status : Int) (detail : String)
  | exc (msg : String)
deriving DecidableEq, Repr

/-- The per-record normalization applied in both service operations:
missing description → placeholder, missing urls → `[]`, missing
count groups → `0`. -/
def normalizeCharacter (c : RawCharacter) : Character :=
  { id := c.id
  , name := c.name
  , description := c.description.getD "No description available"
  , thumbnail := { path := c.thumbnailPath, extension := c.thumbnailExtension }
  , resourceURI := c.resourceURI
  , urls := c.urls.getD []
  , comics_available := c.comics_available.getD 0
  , series_available := c.series_available.getD 0
  , stories_available := c.stories_available.getD 0
  , events_available := c.events_available.getD 0 }

/-! ### MarvelAPIService -/

structure AuthParams where
  ts : String
  apikey : String
  hash : String
deriving DecidableEq, Repr

/-- Query parameters of a `GET {base}/characters` upstream call.
`nameStartsWith` is `none` when the parameter is not sent. -/
structure ListRequest where
  auth : AuthParams
  limit : Int
  offset : Int
  nameStartsWith : Option String
deriving DecidableEq, Repr

/-- A `GET {base}/characters/{character_id}` upstream call. -/
structure IdRequest where
  characterId : Int
  auth : AuthParams
deriving DecidableEq, Repr

/-- The dict returned by `MarvelAPIService.get_characters` on success. -/
structure ListResponse where
  characters : List Character
  total : Int
  count : Int
  offset : Int
deriving DecidableEq, Repr

namespace MarvelAPIService

/-- `MarvelAPIService._generate_auth_params` (lines 79-89):
`ts = str(int(time.time()))`, `hash = md5(ts + private_key + public_key)`.
`now` is the current Unix time in whole seconds. -/
def generate_auth_params (public_key private_key : String) (now : Nat) : AuthParams :=
  let timestamp := toString now
  let hash_string := timestamp ++ private_key ++ public_key
  let hash_md5 := md5Hex hash_string
  { ts := timestamp, apikey := public_key, hash := hash_md5 }

/-- The query-parameter dict that `get_characters` (lines 94-100) builds and
hands to `requests.get`: auth params, `limit` clamped by `min(limit, 100)`,
`offset` as given, and `nameStartsWith` only when the argument is truthy
(Python: `None` and `""` are both falsy). -/
def buildListRequest (public_key private_key : String) (now : Nat)
    (name_starts_with : Option String) (limit offset : Int) : ListRequest :=
  { auth := generate_auth_params public_key private_key now
  , limit := min limit 100
  , offset := offset
  , nameStartsWith :=
      match name_starts_with with
      | some s => if s = "" then none else some s
      | none => none }

/-- The body of `MarvelAPIService.get_characters` (lines 91-137), with the
network modelled as a function `net` from the built request to a transport
outcome and the current time passed explicitly.  A `RequestException`
becomes `HTTPException(503, ...)`; an envelope whose `code` is not 200
becomes `HTTPException(400, ...)` (raised inside the `try`, but not caught
by the `except RequestException` clause, so it propagates). -/
def get_characters_body (public_key private_key : String) (now : Nat)
    (net : ListRequest → Transport)
    (name_starts_with : Option String) (limit offset : Int) :
    PyResult ListResponse :=
  let req := buildListRequest public_key private_key now name_starts_with limit offset
  match net req with
  | .requestError e => .httpExc 503 ("Marvel API unavailable: " ++ e)
  | .ok data =>
    if data.code = 200 then
      .ok { characters := data.results.map normalizeCharacter
          , total := data.total
          , count := data.count
          , offset := data.offset }
    else
      .httpExc 400 ("Marvel API error: " ++ data.status)

/-- The request that `get_character_by_id` (lines 142-146) sends:
`GET {base}/characters/{character_id}` with freshly generated auth params. -/
def buildIdRequest (public_key private_key : String) (now : Nat)
    (character_id : Int) : IdRequest :=
  { characterId := character_id
  , auth := generate_auth_params public_key private_key now }

/-- The body of `MarvelAPIService.get_character_by_id` (lines 139-171).
`if data['code'] == 200 and data['data']['results']:` — the 404 branch is
taken both when the result list is empty and when the envelope code is not
200. -/
def get_character_by_id_body (public_key private_key : String) (now : Nat)
    (net : IdRequest → Transport) (character_id : Int) : PyResult Character :=
  let req := buildIdRequest public_key private_key now character_id
  match net req with
  | .requestError e => .httpExc 503 ("Marvel API unavailable: " ++ e)
  | .ok data =>
    match data.results with
    | [] => .httpExc 404 "Character not found"
    | char_data :: _ =>
      if data.code = 200 then .ok (normalizeCharacter char_data)
      else .httpExc 404 "Character not found"

end MarvelAPIService

/-! ### `functools.lru_cache` on `MarvelAPIService.get_characters`

`@lru_cache(maxsize=100)` wraps the *whole* method: the cache key is the
raw argument tuple `(name_starts_with, limit, offset)` as passed by the
caller — the `min(limit, 100)` clamp happens inside the body, after key
lookup.  Only successful returns are cached (a raised exception is not
memoized).  `entries` is most-recently-used first; an insertion past
`maxsize = 100` drops the least recently used entry. -/

/-- Cache key: the raw argument tuple of `get_characters`. -/
abbrev ListKey := Option String × Int × Int

/-- Process-wide state of the memoized `get_characters`: the LRU entries
plus a counter of how many times the body (hence the network) ran. -/
structure CachedListState where
  entries : List (ListKey × ListResponse)
  upstreamCalls : Nat
deriving DecidableEq, Repr

def emptyCachedListState : CachedListState := { entries := [], upstreamCalls := 0 }

/-- One call of the `lru_cache`-wrapped `get_characters`.  A hit returns the
cached value and moves its key to the front; a miss runs the body (counting
one upstream call) and caches the value only when the body returned
normally. -/
def cachedGetCharacters (public_key private_key : String) (now : Nat)
    (net : ListRequest → Transport) (st : CachedListState)
    (name_starts_with : Option String) (limit offset : Int) :
    PyResult ListResponse × CachedListState :=
  match st.entries.find?
      (fun e => decide (e.1 = (name_starts_with, limit, offset))) with
  | some e =>
    (.ok e.2,
     { st with entries := (((name_starts_with, limit, offset), e.2) ::
         st.entries.filter
           (fun e2 => decide (¬e2.1 = (name_starts_with, limit, offset)))) })
  | none =>
    match MarvelAPIService.get_characters_body public_key private_key now net
        name_starts_with limit offset with
    | .ok v =>
      (.ok v,
       { entries := (((name_starts_with, limit, offset), v) :: st.entries).take 100
       , upstreamCalls := st.upstreamCalls + 1 })
    | other => (other, { st with upstreamCalls := st.upstreamCalls + 1 })

/-! ### Route handlers -/

/-- `str(e)` for a FastAPI/Starlette `HTTPException`. -/
def strOfHTTPException (status : Int) (detail : String) : String :=
  toString status ++ ": " ++ detail

/-- The `GET /characters` route handler (lines 181-196).  Its `try` has a
single `except Exception` clause; `HTTPException` is a subclass of
`Exception`, so the service's typed 503/400 exceptions are also caught and
re-raised as `HTTPException(500, str(e))`. -/
def get_characters_route (r : PyResult ListResponse) : PyResult ListResponse :=
  match r with
  | .ok v => .ok v
  | .httpExc s d => .httpExc 500 (strOfHTTPException s d)
  | .exc m => .httpExc 500 m

/-- The `GET /characters/{character_id}` route handler (lines 198-208):
`except HTTPException: raise` passes the service's typed exceptions
through unchanged; any other exception becomes `HTTPException(500, str(e))`. -/
def get_character_route (r : PyResult Character) : PyResult Character :=
  match r with
  | .ok c => .ok c
  | .httpExc s d => .httpExc s d
  | .exc m => .httpExc 500 m

/-- The HTTP status code of a finished route handler's outcome. -/
def httpStatus {α : Type} : PyResult α → Int
  | .ok _ => 200
  | .httpExc s _ => s
  | .exc _ => 500

/-! ### Favorites store

The Mongo `favorites` collection is modelled as a list of records in
insertion order; `find_one`/`delete_one` scan in store order. -/

abbrev FavStore := List FavoriteCharacter

/-- The query filter `{'user_id': user_id, 'character_id': character_id}`. -/
def favMatches (user_id : String) (character_id : Int) (f : FavoriteCharacter) : Bool :=
  f.user_id == user_id && f.character_id == character_id

/-- `db.favorites.find_one({'user_id': ..., 'character_id': ...})`. -/
def find_one (store : FavStore) (user_id : String) (character_id : Int) :
    Option FavoriteCharacter :=
  store.find? (favMatches user_id character_id)

/-- `db.favorites.delete_one(...)`: removes the first matching record (at
most one) and reports the deleted count. -/
def delete_one : FavStore → String → Int → Nat × FavStore
  | [], _, _ => (0, [])
  | f :: rest, user_id, character_id =>
    if favMatches user_id character_id f then (1, rest)
    else
      let r := delete_one rest user_id character_id
      (r.1, f :: r.2)

/-- The `POST /favorites` route handler `add_favorite` (lines 210-229).
`freshId` models the `uuid.uuid4()` default and `now` the
`datetime.now(timezone.utc)` default of `FavoriteCharacter`. -/
def add_favorite (store : FavStore) (user_id : String) (character_id : Int)
    (character_name : String) (freshId : String) (now : Int) :
    PyResult FavoriteCharacter × FavStore :=
  match find_one store user_id character_id with
  | some _ => (.httpExc 400 "Character already in favorites", store)
  | none =>
    let favorite_obj : FavoriteCharacter :=
      { id := freshId
      , user_id := user_id
      , character_id := character_id
      , character_name := character_name
      , added_at := now }
    (.ok favorite_obj, store ++ [favorite_obj])

/-- The `GET /favorites/{user_id}` route handler `get_favorites`
(lines 231-238): `find({'user_id': user_id}).to_list(1000)`. -/
def get_favorites (store : FavStore) (user_id : String) : List FavoriteCharacter :=
  (store.filter (fun f => f.user_id == user_id)).take 1000

/-- The `DELETE /favorites/{user_id}/{character_id}` route handler
`remove_favorite` (lines 240-256). -/
def remove_favorite (store : FavStore) (user_id : String) (character_id : Int) :
    PyResult String × FavStore :=
  let result := delete_one store user_id character_id
  if result.1 = 0 then (.httpExc 404 "Favorite not found", result.2)
  else (.ok "Favorite removed successfully", result.2)

/-- A sequential client operation against the favorites store. -/
inductive FavOp where
  | add (user_id : String) (character_id : Int) (character_name freshId : String) (now : Int)
  | remove (user_id : String) (character_id : Int)
deriving DecidableEq, Repr

def applyFavOp (store : FavStore) : FavOp → FavStore
  | .add user_id character_id character_name freshId now =>
    (add_favorite store user_id character_id character_name freshId now).2
  | .remove user_id character_id =>
    (remove_favorite store user_id character_id).2

def applyFavOps (store : FavStore) (ops : List FavOp) : FavStore :=
  ops.foldl applyFavOp store

/-- At most one record per `(user_id, character_id)` pair. -/
def UniquePairs (store : FavStore) : Prop :=
  store.Pairwise
    (fun a b => ¬(a.user_id = b.user_id ∧ a.character_id = b.character_id))

/-! ### Concrete stubbed upstreams, for witnesses and counterexamples -/

/-- A fixed successful upstream envelope with no results. -/
def stubEnvelope : Envelope :=
  { code := 200, status := "Ok", results := [], total := 0, count := 0, offset := 0 }

/-- A stubbed network that answers every listing request with `stubEnvelope`. -/
def stubListNet : ListRequest → Transport := fun _ => .ok stubEnvelope

/-- The `ListResponse` the service builds from `stubEnvelope`. -/
def stubListResponse : ListResponse :=
  { characters := [], total := 0, count := 0, offset := 0 }

/-- A concrete raw upstream record with id 42. -/
def rc42 : RawCharacter :=
  { id := 42, name := "A", description := none, thumbnailPath := "p"
  , thumbnailExtension := "jpg", resourceURI := "r", urls := none
  , comics_available := none, series_available := none
  , stories_available := none, events_available := none }

/-- An envelope whose own code reports failure while the result list is
non-empty. -/
def envProtocolError : Envelope :=
  { code := 500, status := "InternalError", results := [rc42]
  , total := 1, count := 1, offset := 0 }

/-- A successful envelope whose first (and only) result has id 42. -/
def envOk42 : Envelope :=
  { code := 200, status := "Ok", results := [rc42]
  , total := 1, count := 1, offset := 0 }

/-! ### Helper lemmas about the favorites store -/

theorem favMatches_iff (user_id : String) (character_id : Int) (f : FavoriteCharacter) :
    favMatches user_id character_id f = true ↔
      f.user_id = user_id ∧ f.character_id = character_id := by
  simp [favMatches]

theorem delete_one_sublist (store : FavStore) (user_id : String) (character_id : Int) :
    (delete_one store user_id character_id).2.Sublist store := by
  induction store with
  | nil => simp [delete_one]
  | cons f rest ih =>
    by_cases h : favMatches user_id character_id f
    · simp only [delete_one, h, if_pos]
      exact List.sublist_cons_self f rest
    · simp only [delete_one, h, Bool.false_eq_true, if_neg, not_false_iff]
      exact ih.cons₂ f

theorem delete_one_fst_eq_zero_iff (store : FavStore) (user_id : String)
    (character_id : Int) :
    (delete_one store user_id character_id).1 = 0 ↔
      find_one store user_id character_id = none := by
  induction store with
  | nil => simp [delete_one, find_one]
  | cons f rest ih =>
    by_cases h : favMatches user_id character_id f
    · simp [delete_one, find_one, h]
    · simpa [delete_one, find_one, h] using ih

theorem delete_one_snd_of_none (store : FavStore) (user_id : String)
    (character_id : Int)
    (h : find_one store user_id character_id = none) :
    (delete_one store user_id character_id).2 = store := by
  induction store with
  | nil => simp [delete_one]
  | cons f rest ih =>
    have hf : favMatches user_id character_id f = false := by
      have := (List.find?_eq_none.mp h) f (by simp)
      simpa using this
    have hrest : find_one rest user_id character_id = none := by
      simpa [find_one, hf] using h
    simp [delete_one, hf, ih hrest]

theorem delete_one_length_of_found (store : FavStore) (user_id : String)
    (character_id : Int)
    (h : find_one store user_id character_id ≠ none) :
    (delete_one store user_id character_id).2.length + 1 = store.length := by
  induction store with
  | nil => simp [find_one] at h
  | cons f rest ih =>
    by_cases hf : favMatches user_id character_id f
    · simp [delete_one, hf]
    · have hrest : find_one rest user_id character_id ≠ none := by
        simpa [find_one, hf] using h
      simpa [delete_one, hf] using ih hrest

theorem delete_one_countP_of_found (store : FavStore) (user_id : String)
    (character_id : Int)
    (h : find_one store user_id character_id ≠ none) :
    (delete_one store user_id character_id).2.countP (favMatches user_id character_id) + 1 =
      store.countP (favMatches user_id character_id) := by
  induction store with
  | nil => simp [find_one] at h
  | cons f rest ih =>
    by_cases hf : favMatches user_id character_id f
    · simp [delete_one, hf, List.countP_cons, if_pos]
    · have hrest : find_one rest user_id character_id ≠ none := by
        simpa [find_one, hf] using h
      simpa [delete_one, hf, List.countP_cons] using ih hrest

theorem delete_one_append_fresh (store : FavStore) (user_id : String)
    (character_id : Int) (fav : FavoriteCharacter)
    (hno : ∀ f ∈ store, favMatches user_id character_id f = false)
    (hm : favMatches user_id character_id fav = true) :
    delete_one (store ++ [fav]) user_id character_id = (1, store) := by
  induction store with
  | nil => simp [delete_one, hm]
  | cons g rest ih =>
    have hg : favMatches user_id character_id g = false := hno g (by simp)
    have := ih (fun f hf => hno f (by simp [hf]))
    simp [delete_one, hg, this]

theorem add_favorite_of_exists (store : FavStore) (user_id : String)
    (character_id : Int) (character_name freshId : String) (now : Int)
    (h : ∃ f ∈ store, favMatches user_id character_id f = true) :
    add_favorite store user_id character_id character_name freshId now =
      (.httpExc 400 "Character already in favorites", store) := by
  obtain ⟨f, hf, hmatch⟩ := h
  have hsome : (find_one store user_id character_id).isSome := by
    simp only [find_one, List.find?_isSome]
    exact ⟨f, hf, hmatch⟩
  obtain ⟨g, hg⟩ := Option.isSome_iff_exists.mp hsome
  simp [add_favorite, hg]

theorem add_favorite_of_not_exists (store : FavStore) (user_id : String)
    (character_id : Int) (character_name freshId : String) (now : Int)
    (h : ∀ f ∈ store, favMatches user_id character_id f = false) :
    add_favorite store user_id character_id character_name freshId now =
      (.ok ⟨freshId, user_id, character_id, character_name, now⟩,
       store ++ [⟨freshId, user_id, character_id, character_name, now⟩]) := by
  have hnone : find_one store user_id character_id = none := by
    simp only [find_one, List.find?_eq_none]
    intro f hf
    simp [h f hf]
  simp [add_favorite, hnone]

/-! ### Claim theorems: favorites store -/

/-- C5: `add_favorite` fails with `DuplicateFavorite` (HTTP 400) and leaves
the store unchanged when a record with the same `(user_id, character_id)`
pair already exists; otherwise it appends exactly one new record built from
the fresh identifier and the current UTC timestamp and returns it. -/
theorem C5_add_favorite (store : FavStore) (user_id : String) (character_id : Int)
    (character_name freshId : String) (now : Int) :
    ((∃ f ∈ store, favMatches user_id character_id f = true) →
      add_favorite store user_id character_id character_name freshId now =
        (.httpExc 400 "Character already in favorites", store)) ∧
    ((∀ f ∈ store, favMatches user_id character_id f = false) →
      add_favorite store user_id character_id character_name freshId now =
        (.ok ⟨freshId, user_id, character_id, character_name, now⟩,
         store ++ [⟨freshId, user_id, character_id, character_name, now⟩])) :=
  ⟨add_favorite_of_exists store user_id character_id character_name freshId now,
   add_favorite_of_not_exists store user_id character_id character_name freshId now⟩

/-- C5 witness: adding to an empty store persists exactly the new record. -/
theorem C5_add_favorite_witness :
    add_favorite [] "u1" 1009610 "Spider-Man" "fid-1" 1700000000 =
      (.ok ⟨"fid-1", "u1", 1009610, "Spider-Man", 1700000000⟩,
       [⟨"fid-1", "u1", 1009610, "Spider-Man", 1700000000⟩]) :=
  (C5_add_favorite [] "u1" 1009610 "Spider-Man" "fid-1" 1700000000).2
    (by intro f hf; simp at hf)

/-- C6: under sequential execution, every sequence of add and remove
operations preserves uniqueness of the `(user_id, character_id)` pair
across the favorites store. -/
theorem C6_unique_pairs_invariant (store : FavStore) (ops : List FavOp)
    (h : UniquePairs store) : UniquePairs (applyFavOps store ops) := by
  induction ops generalizing store with
  | nil => exact h
  | cons op rest ih =>
    refine ih _ ?_
    cases op with
    | add user_id character_id character_name freshId now =>
      show UniquePairs (add_favorite store user_id character_id character_name freshId now).2
      cases hf : find_one store user_id character_id with
      | some f => simpa [add_favorite, hf] using h
      | none =>
        have hall := List.find?_eq_none.mp hf
        simp only [add_favorite, hf]
        unfold UniquePairs
        rw [List.pairwise_append]
        refine ⟨h, by simp, ?_⟩
        intro a ha b hb
        simp only [List.mem_singleton] at hb
        subst hb
        intro hab
        have := hall a ha
        rw [favMatches_iff] at this
        exact this ⟨hab.1, hab.2⟩
    | remove user_id character_id =>
      show UniquePairs (remove_favorite store user_id character_id).2
      have hsub : (remove_favorite store user_id character_id).2.Sublist store := by
        unfold remove_favorite
        by_cases hz : (delete_one store user_id character_id).1 = 0
        · simpa [hz] using delete_one_sublist store user_id character_id
        · simpa [hz] using delete_one_sublist store user_id character_id
      exact List.Pairwise.sublist hsub h

/-- C6 witness: a concrete op sequence from the empty store keeps the invariant. -/
theorem C6_unique_pairs_invariant_witness :
    UniquePairs (applyFavOps []
      [.add "u1" 1 "A" "f1" 0, .add "u1" 1 "B" "f2" 1, .remove "u1" 1,
       .add "u1" 1 "C" "f3" 2]) :=
  C6_unique_pairs_invariant [] _ (by simp [UniquePairs])

/-- C7: `remove_favorite` fails with `NotFound` (HTTP 404), leaving the
store unchanged, exactly when no record matches `(user_id, character_id)`;
otherwise it returns the success message and deletes exactly one matching
record: one fewer record overall, one fewer matching record, and the rest
kept in order. -/
theorem C7_remove_favorite (store : FavStore) (user_id : String) (character_id : Int) :
    (remove_favorite store user_id character_id =
        (.httpExc 404 "Favorite not found", store) ↔
      find_one store user_id character_id = none) ∧
    (find_one store user_id character_id ≠ none →
      (remove_favorite store user_id character_id).1 =
          .ok "Favorite removed successfully" ∧
        (remove_favorite store user_id character_id).2.Sublist store ∧
        (remove_favorite store user_id character_id).2.length + 1 = store.length ∧
        (remove_favorite store user_id character_id).2.countP
            (favMatches user_id character_id) + 1 =
          store.countP (favMatches user_id character_id)) := by
  constructor
  · constructor
    · intro h
      by_cases hz : (delete_one store user_id character_id).1 = 0
      · exact (delete_one_fst_eq_zero_iff store user_id character_id).mp hz
      · simp [remove_favorite, hz] at h
    · intro h
      have hz : (delete_one store user_id character_id).1 = 0 :=
        (delete_one_fst_eq_zero_iff store user_id character_id).mpr h
      simp [remove_favorite, hz, delete_one_snd_of_none store user_id character_id h]
  · intro h
    have hz : (delete_one store user_id character_id).1 ≠ 0 := by
      intro hz
      exact h ((delete_one_fst_eq_zero_iff store user_id character_id).mp hz)
    refine ⟨by simp [remove_favorite, hz], ?_, ?_, ?_⟩
    · simpa [remove_favorite, hz] using delete_one_sublist store user_id character_id
    · simpa [remove_favorite, hz] using
        delete_one_length_of_found store user_id character_id h
    · simpa [remove_favorite, hz] using
        delete_one_countP_of_found store user_id character_id h

/-- C7 witness: removing from a one-record store succeeds and empties it;
removing a pair that is absent fails with 404. -/
theorem C7_remove_favorite_witness :
    (remove_favorite [⟨"f1", "u1", 5, "X", 0⟩] "u1" 5).1 =
        .ok "Favorite removed successfully" ∧
      remove_favorite [] "u1" 5 = (.httpExc 404 "Favorite not found", []) :=
  ⟨((C7_remove_favorite [⟨"f1", "u1", 5, "X", 0⟩] "u1" 5).2 (by decide)).1,
   (C7_remove_favorite [] "u1" 5).1.mpr (by decide)⟩

/-- C8: for a pair not yet favorited, add followed by remove restores the
store exactly, so listing that user's favorites yields the same list as
before the add. -/
theorem C8_add_remove_round_trip (store : FavStore) (user_id : String)
    (character_id : Int) (character_name freshId : String) (now : Int)
    (h : ∀ f ∈ store, favMatches user_id character_id f = false) :
    (remove_favorite
        (add_favorite store user_id character_id character_name freshId now).2
        user_id character_id).2 = store ∧
    get_favorites
        (remove_favorite
          (add_favorite store user_id character_id character_name freshId now).2
          user_id character_id).2 user_id =
      get_favorites store user_id := by
  have hnone : find_one store user_id character_id = none := by
    simp only [find_one, List.find?_eq_none]
    intro f hf
    simp [h f hf]
  have hadd :
      (add_favorite store user_id character_id character_name freshId now).2 =
        store ++ [⟨freshId, user_id, character_id, character_name, now⟩] := by
    simp [add_favorite, hnone]
  have hm : favMatches user_id character_id
      ⟨freshId, user_id, character_id, character_name, now⟩ = true := by
    simp [favMatches]
  have hdel := delete_one_append_fresh store user_id character_id
    ⟨freshId, user_id, character_id, character_name, now⟩ h hm
  have hstore : (remove_favorite
      (add_favorite store user_id character_id character_name freshId now).2
      user_id character_id).2 = store := by
    rw [hadd]
    simp [remove_favorite, hdel]
  exact ⟨hstore, by rw [hstore]⟩

/-- C8 witness: round trip on a concrete store with an unrelated record. -/
theorem C8_add_remove_round_trip_witness :
    (remove_favorite
        (add_favorite [⟨"f0", "u2", 9, "Y", 0⟩] "u1" 5 "X" "f1" 1).2 "u1" 5).2 =
      [⟨"f0", "u2", 9, "Y", 0⟩] :=
  (C8_add_remove_round_trip [⟨"f0", "u2", 9, "Y", 0⟩] "u1" 5 "X" "f1" 1
    (by decide)).1

/-- C10: the duplicate check matches on `(user_id, character_id)` only: a
second add with the same pair but a different `character_name` still fails
with `DuplicateFavorite` (HTTP 400), and the store — hence the originally
stored record with its original name — is unchanged. -/
theorem C10_duplicate_ignores_name (store : FavStore) (f : FavoriteCharacter)
    (character_name2 freshId : String) (now : Int)
    (hmem : f ∈ store) :
    add_favorite store f.user_id f.character_id character_name2 freshId now =
      (.httpExc 400 "Character already in favorites", store) ∧
    f ∈ (add_favorite store f.user_id f.character_id character_name2 freshId now).2 := by
  have hdup :=
    add_favorite_of_exists store f.user_id f.character_id character_name2 freshId now
      ⟨f, hmem, by simp [favMatches]⟩
  exact ⟨hdup, by rw [hdup]; exact hmem⟩

/-! ### Helper lemmas: digest shape -/

theorem md5Bytes_length (msg : List Nat) : (md5Bytes msg).length = 16 := by
  simp [md5Bytes, le4]

theorem hexDigit_isHexChar (n : Nat) (h : n < 16) : isHexChar (hexDigit n) = true := by
  interval_cases n <;> decide

theorem byteHex_isHexChar (b : Nat) : ∀ c ∈ byteHex b, isHexChar c = true := by
  intro c hc
  simp only [byteHex, List.mem_cons, List.not_mem_nil, or_false] at hc
  rcases hc with h | h <;> subst h <;>
    exact hexDigit_isHexChar _ (Nat.mod_lt _ (by decide))

theorem bytesToHex_data (bs : List Nat) :
    (bytesToHex bs).data = bs.foldr (fun b acc => byteHex b ++ acc) [] := rfl

theorem foldr_byteHex_length (bs : List Nat) :
    (bs.foldr (fun b acc => byteHex b ++ acc) []).length = 2 * bs.length := by
  induction bs with
  | nil => rfl
  | cons b rest ih =>
    simp only [List.foldr_cons, List.length_append, ih, List.length_cons]
    show 2 + 2 * rest.length = 2 * (rest.length + 1)
    omega

theorem bytesToHex_length (bs : List Nat) :
    (bytesToHex bs).length = 2 * bs.length :=
  foldr_byteHex_length bs

theorem mem_bytesToHex_isHex (bs : List Nat) :
    ∀ c ∈ (bytesToHex bs).data, isHexChar c = true := by
  induction bs with
  | nil =>
    intro c hc
    rw [bytesToHex_data] at hc
    simp at hc
  | cons b rest ih =>
    intro c hc
    rw [bytesToHex_data] at hc
    simp only [List.foldr_cons, List.mem_append] at hc
    rcases hc with h | h
    · exact byteHex_isHexChar b c h
    · exact ih c (by rw [bytesToHex_data]; exact h)

theorem md5Hex_length (s : String) : (md5Hex s).length = 32 := by
  show (bytesToHex (md5Bytes (strToBytes s))).length = 32
  rw [bytesToHex_length, md5Bytes_length]

theorem md5Hex_mem_hex (s : String) :
    ∀ c ∈ (md5Hex s).data, isHexChar c = true :=
  mem_bytesToHex_isHex _

/-! ### Claim theorems: upstream authentication -/

/-- C1: every upstream request carries exactly the three authentication
query parameters: `ts` = the current Unix time in whole seconds, `apikey` =
the public identifier, and `hash` = the hex-encoded MD5 digest (32
lowercase hex characters, i.e. 128 bits) of timestamp ++ private secret ++
public identifier in that fixed order; both request builders embed the auth
parameters freshly generated at the time of the call that reaches the
network. -/
theorem C1_auth_params (public_key private_key : String) (now : Nat)
    (name_starts_with : Option String) (limit offset : Int) (character_id : Int) :
    MarvelAPIService.generate_auth_params public_key private_key now =
      { ts := toString now
      , apikey := public_key
      , hash := md5Hex (toString now ++ private_key ++ public_key) } ∧
    (MarvelAPIService.generate_auth_params public_key private_key now).hash.length = 32 ∧
    (∀ c ∈ (MarvelAPIService.generate_auth_params public_key private_key now).hash.data,
      isHexChar c = true) ∧
    (MarvelAPIService.buildListRequest public_key private_key now
        name_starts_with limit offset).auth =
      MarvelAPIService.generate_auth_params public_key private_key now ∧
    (MarvelAPIService.buildIdRequest public_key private_key now character_id).auth =
      MarvelAPIService.generate_auth_params public_key private_key now :=
  ⟨rfl, md5Hex_length _, md5Hex_mem_hex _, rfl, rfl⟩

set_option maxRecDepth 10000 in
/-- C1 witness: auth params at time 1000 with keys "priv"/"pub"; the digest
is the independently computed MD5 of "1000privpub". -/
theorem C1_auth_params_witness :
    MarvelAPIService.generate_auth_params "pub" "priv" 1000 =
      { ts := "1000", apikey := "pub", hash := md5Hex "1000privpub" } ∧
    (MarvelAPIService.generate_auth_params "pub" "priv" 1000).hash.length = 32 ∧
    md5Hex "1000privpub" = "681f00062d702ba0f519106485702dde" := by
  refine ⟨?_, (C1_auth_params "pub" "priv" 1000 none 20 0 7).2.1, by decide⟩
  exact (C1_auth_params "pub" "priv" 1000 none 20 0 7).1

/-- C10 witness: re-adding the same pair under a different name fails with
400 and keeps the original record (original name included). -/
theorem C10_duplicate_ignores_name_witness :
    add_favorite [⟨"f1", "u1", 7, "Original", 0⟩] "u1" 7 "Different" "f2" 1 =
      (.httpExc 400 "Character already in favorites",
       [⟨"f1", "u1", 7, "Original", 0⟩]) ∧
    (⟨"f1", "u1", 7, "Original", 0⟩ : FavoriteCharacter) ∈
      (add_favorite [⟨"f1", "u1", 7, "Original", 0⟩] "u1" 7 "Different" "f2" 1).2 :=
  C10_duplicate_ignores_name [⟨"f1", "u1", 7, "Original", 0⟩]
    ⟨"f1", "u1", 7, "Original", 0⟩ "Different" "f2" 1 (by simp)

/-! ### Claim theorems: limit clamping -/

/-- C2 counterexample: the claim says every caller value below 1 is
forwarded as 1, but the code applies only `min(limit, 100)`: a requested
limit of 0 is forwarded upstream as 0, not 1. -/
theorem C2_counterexample :
    (MarvelAPIService.buildListRequest "pub" "priv" 0 none 0 0).limit = 0 ∧
    (MarvelAPIService.buildListRequest "pub" "priv" 0 none 0 0).limit ≠ 1 :=
  ⟨rfl, by decide⟩

/-- C2 amended: the limit forwarded upstream is exactly `min(limit, 100)`:
every caller-requested value above 100 is forwarded as exactly 100, and
every value at most 100 — including values below 1 — is forwarded
unchanged; no value is rejected at this layer (there is no lower clamp). -/
theorem C2_limit_clamp (public_key private_key : String) (now : Nat)
    (name_starts_with : Option String) (limit offset : Int) :
    (MarvelAPIService.buildListRequest public_key private_key now
        name_starts_with limit offset).limit = min limit 100 ∧
    (limit > 100 →
      (MarvelAPIService.buildListRequest public_key private_key now
          name_starts_with limit offset).limit = 100) ∧
    (limit ≤ 100 →
      (MarvelAPIService.buildListRequest public_key private_key now
          name_starts_with limit offset).limit = limit) := by
  refine ⟨rfl, ?_, ?_⟩
  · intro h
    show min limit 100 = 100
    exact min_eq_right (le_of_lt h)
  · intro h
    show min limit 100 = limit
    exact min_eq_left h

/-- C2 witness: limit 150 is forwarded as 100; limit 20 is forwarded as 20. -/
theorem C2_limit_clamp_witness :
    (MarvelAPIService.buildListRequest "pub" "priv" 0 none 150 0).limit = 100 ∧
    (MarvelAPIService.buildListRequest "pub" "priv" 0 none 20 0).limit = 20 :=
  ⟨(C2_limit_clamp "pub" "priv" 0 none 150 0).2.1 (by decide),
   (C2_limit_clamp "pub" "priv" 0 none 20 0).2.2 (by decide)⟩

/-! ### Helper lemmas about the memoization cache -/

theorem cachedGetCharacters_eq_hit {public_key private_key : String} {now : Nat}
    {net : ListRequest → Transport} {st : CachedListState}
    {name_starts_with : Option String} {limit offset : Int}
    {e : ListKey × ListResponse}
    (hf : st.entries.find?
      (fun e => decide (e.1 = (name_starts_with, limit, offset))) = some e) :
    cachedGetCharacters public_key private_key now net st
        name_starts_with limit offset =
      (.ok e.2,
       { st with entries := (((name_starts_with, limit, offset), e.2) ::
           st.entries.filter
             (fun e2 => decide (¬e2.1 = (name_starts_with, limit, offset)))) }) := by
  unfold cachedGetCharacters
  rw [hf]

theorem cachedGetCharacters_eq_miss_ok {public_key private_key : String} {now : Nat}
    {net : ListRequest → Transport} {st : CachedListState}
    {name_starts_with : Option String} {limit offset : Int} {w : ListResponse}
    (hf : st.entries.find?
      (fun e => decide (e.1 = (name_starts_with, limit, offset))) = none)
    (hr : MarvelAPIService.get_characters_body public_key private_key now net
      name_starts_with limit offset = .ok w) :
    cachedGetCharacters public_key private_key now net st
        name_starts_with limit offset =
      (.ok w,
       { entries := (((name_starts_with, limit, offset), w) :: st.entries).take 100
       , upstreamCalls := st.upstreamCalls + 1 }) := by
  unfold cachedGetCharacters
  rw [hf, hr]

theorem cachedGetCharacters_eq_miss_httpExc {public_key private_key : String}
    {now : Nat} {net : ListRequest → Transport} {st : CachedListState}
    {name_starts_with : Option String} {limit offset : Int} {s : Int} {d : String}
    (hf : st.entries.find?
      (fun e => decide (e.1 = (name_starts_with, limit, offset))) = none)
    (hr : MarvelAPIService.get_characters_body public_key private_key now net
      name_starts_with limit offset = .httpExc s d) :
    cachedGetCharacters public_key private_key now net st
        name_starts_with limit offset =
      (.httpExc s d, { st with upstreamCalls := st.upstreamCalls + 1 }) := by
  unfold cachedGetCharacters
  rw [hf, hr]

theorem cachedGetCharacters_eq_miss_exc {public_key private_key : String}
    {now : Nat} {net : ListRequest → Transport} {st : CachedListState}
    {name_starts_with : Option String} {limit offset : Int} {m : String}
    (hf : st.entries.find?
      (fun e => decide (e.1 = (name_starts_with, limit, offset))) = none)
    (hr : MarvelAPIService.get_characters_body public_key private_key now net
      name_starts_with limit offset = .exc m) :
    cachedGetCharacters public_key private_key now net st
        name_starts_with limit offset =
      (.exc m, { st with upstreamCalls := st.upstreamCalls + 1 }) := by
  unfold cachedGetCharacters
  rw [hf, hr]

theorem cachedGetCharacters_ok_head (public_key private_key : String) (now : Nat)
    (net : ListRequest → Transport) (st : CachedListState)
    (name_starts_with : Option String) (limit offset : Int) (v : ListResponse)
    (h : (cachedGetCharacters public_key private_key now net st
        name_starts_with limit offset).1 = .ok v) :
    ∃ rest, (cachedGetCharacters public_key private_key now net st
        name_starts_with limit offset).2.entries =
      ((name_starts_with, limit, offset), v) :: rest := by
  cases hf : st.entries.find?
      (fun e => decide (e.1 = (name_starts_with, limit, offset))) with
  | some e =>
    rw [cachedGetCharacters_eq_hit hf] at h ⊢
    simp only [PyResult.ok.injEq] at h
    exact ⟨_, by rw [h]⟩
  | none =>
    cases hr : MarvelAPIService.get_characters_body public_key private_key now net
        name_starts_with limit offset with
    | ok w =>
      rw [cachedGetCharacters_eq_miss_ok hf hr] at h ⊢
      simp only [PyResult.ok.injEq] at h
      subst h
      exact ⟨st.entries.take 99, rfl⟩
    | httpExc s d =>
      rw [cachedGetCharacters_eq_miss_httpExc hf hr] at h
      simp at h
    | exc m =>
      rw [cachedGetCharacters_eq_miss_exc hf hr] at h
      simp at h

theorem cachedGetCharacters_hit (public_key private_key : String) (now : Nat)
    (net : ListRequest → Transport) (st : CachedListState)
    (name_starts_with : Option String) (limit offset : Int) (v : ListResponse)
    (rest : List (ListKey × ListResponse))
    (h : st.entries = ((name_starts_with, limit, offset), v) :: rest) :
    (cachedGetCharacters public_key private_key now net st
        name_starts_with limit offset).1 = .ok v ∧
    (cachedGetCharacters public_key private_key now net st
        name_starts_with limit offset).2.upstreamCalls = st.upstreamCalls := by
  have hf : st.entries.find?
      (fun e => decide (e.1 = (name_starts_with, limit, offset))) =
        some ((name_starts_with, limit, offset), v) := by
    rw [h]
    exact List.find?_cons_of_pos _ (by simp)
  rw [cachedGetCharacters_eq_hit hf]
  exact ⟨rfl, rfl⟩

/-! ### Claim theorems: memoization cache -/

/-- C3 counterexample: the lru_cache key is the raw argument tuple, taken
before the `min(limit, 100)` clamp.  Limits 150 and 200 (same search and
offset) have equal post-clamp tuples, yet two consecutive such calls from
an empty cache perform two upstream network calls — the claim predicts one
shared cache entry and exactly one call. -/
theorem C3_counterexample :
    min (150 : Int) 100 = min (200 : Int) 100 ∧
    (cachedGetCharacters "pub" "priv" 0 stubListNet
        (cachedGetCharacters "pub" "priv" 0 stubListNet emptyCachedListState
          (some "spider") 150 0).2
        (some "spider") 200 0).2.upstreamCalls = 2 :=
  ⟨by decide, rfl⟩

/-- C3 amended: the memoization cache is keyed by the raw argument tuple as
passed by the caller (before clamping).  Any two calls with equal raw
tuples share one entry: after a call that returns normally, an immediately
repeated identical call (at any later time) is a cache hit — it returns the
same value and performs no further upstream network call. -/
theorem C3_memoization (public_key private_key : String) (now1 now2 : Nat)
    (net : ListRequest → Transport) (st : CachedListState)
    (name_starts_with : Option String) (limit offset : Int) (v : ListResponse)
    (h : (cachedGetCharacters public_key private_key now1 net st
        name_starts_with limit offset).1 = .ok v) :
    (cachedGetCharacters public_key private_key now2 net
        (cachedGetCharacters public_key private_key now1 net st
          name_starts_with limit offset).2
        name_starts_with limit offset).1 = .ok v ∧
    (cachedGetCharacters public_key private_key now2 net
        (cachedGetCharacters public_key private_key now1 net st
          name_starts_with limit offset).2
        name_starts_with limit offset).2.upstreamCalls =
      (cachedGetCharacters public_key private_key now1 net st
        name_starts_with limit offset).2.upstreamCalls := by
  obtain ⟨rest, hhead⟩ := cachedGetCharacters_ok_head public_key private_key now1
    net st name_starts_with limit offset v h
  exact cachedGetCharacters_hit public_key private_key now2 net _
    name_starts_with limit offset v rest hhead

/-- C3 witness: two consecutive identical calls against a stubbed upstream:
the second is a hit, returning the same value with no further network call. -/
theorem C3_memoization_witness :
    (cachedGetCharacters "pub" "priv" 1 stubListNet
        (cachedGetCharacters "pub" "priv" 0 stubListNet emptyCachedListState
          (some "spider") 10 0).2
        (some "spider") 10 0).1 = .ok stubListResponse ∧
    (cachedGetCharacters "pub" "priv" 1 stubListNet
        (cachedGetCharacters "pub" "priv" 0 stubListNet emptyCachedListState
          (some "spider") 10 0).2
        (some "spider") 10 0).2.upstreamCalls =
      (cachedGetCharacters "pub" "priv" 0 stubListNet emptyCachedListState
        (some "spider") 10 0).2.upstreamCalls :=
  C3_memoization "pub" "priv" 0 1 stubListNet emptyCachedListState
    (some "spider") 10 0 stubListResponse rfl

/-! ### Claim theorems: character lookup by id -/

/-- C4 counterexample: (i) when the upstream is reachable but its envelope
code is not 200 and the result list is non-empty, `get_character_by_id`
raises 404 — the claim says NotFound arises exactly on an empty result set
and that such a failure would surface as 500; (ii) on success the code
returns the upstream record without checking its id against the requested
one: requesting id 7 from a stub answering with id 42 yields a record whose
id is 42, not 7. -/
theorem C4_counterexample :
    (MarvelAPIService.get_character_by_id_body "pub" "priv" 0
        (fun _ => .ok envProtocolError) 7 = .httpExc 404 "Character not found" ∧
      envProtocolError.results ≠ []) ∧
    (MarvelAPIService.get_character_by_id_body "pub" "priv" 0
        (fun _ => .ok envOk42) 7 = .ok (normalizeCharacter rc42) ∧
      (normalizeCharacter rc42).id = 42 ∧ (42 : Int) ≠ 7) :=
  ⟨⟨rfl, by decide⟩, ⟨rfl, rfl, by decide⟩⟩

/-- C4 amended: `get_character_by_id` raises 404 exactly when the transport
succeeded and the envelope code is not 200 or the result list is empty;
raises 503 exactly on transport failure; on success it returns the
normalization of the first upstream result (whose id is not compared to the
requested id); the route passes typed HTTP failures through unchanged and
maps any other exception to 500. -/
theorem C4_get_character_by_id (public_key private_key : String) (now : Nat)
    (net : IdRequest → Transport) (character_id : Int) :
    ((∃ d, MarvelAPIService.get_character_by_id_body public_key private_key now
        net character_id = .httpExc 404 d) ↔
      (∃ env, net (MarvelAPIService.buildIdRequest public_key private_key now
          character_id) = .ok env ∧ (env.code ≠ 200 ∨ env.results = []))) ∧
    ((∃ d, MarvelAPIService.get_character_by_id_body public_key private_key now
        net character_id = .httpExc 503 d) ↔
      (∃ e, net (MarvelAPIService.buildIdRequest public_key private_key now
          character_id) = .requestError e)) ∧
    (∀ env rc rest, net (MarvelAPIService.buildIdRequest public_key private_key
        now character_id) = .ok env → env.results = rc :: rest →
      env.code = 200 →
      MarvelAPIService.get_character_by_id_body public_key private_key now net
        character_id = .ok (normalizeCharacter rc)) ∧
    (∀ m, get_character_route (.exc m) = .httpExc 500 m) ∧
    (∀ s d, get_character_route (.httpExc s d) = .httpExc s d) := by
  refine ⟨?_, ?_, ?_, fun m => rfl, fun s d => rfl⟩
  · cases hnet : net (MarvelAPIService.buildIdRequest public_key private_key now
        character_id) with
    | requestError e =>
      simp [MarvelAPIService.get_character_by_id_body, hnet]
    | ok env =>
      cases hres : env.results with
      | nil =>
        simp [MarvelAPIService.get_character_by_id_body, hnet, hres]
      | cons rc rest =>
        by_cases hcode : env.code = 200
        · simp [MarvelAPIService.get_character_by_id_body, hnet, hres, hcode]
        · simp [MarvelAPIService.get_character_by_id_body, hnet, hres, hcode]
  · cases hnet : net (MarvelAPIService.buildIdRequest public_key private_key now
        character_id) with
    | requestError e =>
      simp [MarvelAPIService.get_character_by_id_body, hnet]
    | ok env =>
      cases hres : env.results with
      | nil =>
        simp [MarvelAPIService.get_character_by_id_body, hnet, hres]
      | cons rc rest =>
        by_cases hcode : env.code = 200
        · simp [MarvelAPIService.get_character_by_id_body, hnet, hres, hcode]
        · simp [MarvelAPIService.get_character_by_id_body, hnet, hres, hcode]
  · intro env rc rest hnet hres hcode
    simp [MarvelAPIService.get_character_by_id_body, hnet, hres, hcode]

/-- C4 witness: a successful stub lookup returns the normalized upstream
record; a transport failure yields a 503. -/
theorem C4_get_character_by_id_witness :
    MarvelAPIService.get_character_by_id_body "pub" "priv" 0
        (fun _ => .ok envOk42) 7 = .ok (normalizeCharacter rc42) ∧
    (∃ d, MarvelAPIService.get_character_by_id_body "pub" "priv" 0
        (fun _ => .requestError "timeout") 7 = .httpExc 503 d) :=
  ⟨(C4_get_character_by_id "pub" "priv" 0 (fun _ => .ok envOk42) 7).2.2.1
      envOk42 rc42 [] rfl rfl rfl,
   (C4_get_character_by_id "pub" "priv" 0 (fun _ => .requestError "timeout") 7).2.1.mpr
      ⟨"timeout", rfl⟩⟩

/-! ### Claim theorems: characters listing route -/

/-- C9: every failure raised by the listing service — the typed 503
transport failure and the typed 400 protocol failure included — is caught
by the route handler's `except Exception` clause and surfaced to the client
as HTTP 500, because that clause also intercepts the service's typed
`HTTPException`s. -/
theorem C9_characters_route_masks_errors (public_key private_key : String)
    (now : Nat) (net : ListRequest → Transport)
    (name_starts_with : Option String) (limit offset : Int)
    (s : Int) (d m : String) :
    get_characters_route (.httpExc s d) = .httpExc 500 (strOfHTTPException s d) ∧
    get_characters_route (.exc m) = .httpExc 500 m ∧
    (∀ e, net (MarvelAPIService.buildListRequest public_key private_key now
          name_starts_with limit offset) = .requestError e →
      httpStatus (get_characters_route
        (MarvelAPIService.get_characters_body public_key private_key now net
          name_starts_with limit offset)) = 500) ∧
    (∀ env, net (MarvelAPIService.buildListRequest public_key private_key now
          name_starts_with limit offset) = .ok env → env.code ≠ 200 →
      httpStatus (get_characters_route
        (MarvelAPIService.get_characters_body public_key private_key now net
          name_starts_with limit offset)) = 500) := by
  refine ⟨rfl, rfl, ?_, ?_⟩
  · intro e he
    simp [MarvelAPIService.get_characters_body, he, get_characters_route,
      httpStatus]
  · intro env he hcode
    simp [MarvelAPIService.get_characters_body, he, hcode,
      get_characters_route, httpStatus]

/-- C9 witness: a transport failure and a protocol failure both reach the
client as HTTP 500 through the listing route. -/
theorem C9_characters_route_masks_errors_witness :
    httpStatus (get_characters_route
      (MarvelAPIService.get_characters_body "pub" "priv" 0
        (fun _ => .requestError "timeout") none 20 0)) = 500 ∧
    httpStatus (get_characters_route
      (MarvelAPIService.get_characters_body "pub" "priv" 0
        (fun _ => .ok envProtocolError) none 20 0)) = 500 :=
  ⟨(C9_characters_route_masks_errors "pub" "priv" 0
      (fun _ => .requestError "timeout") none 20 0 503 "x" "y").2.2.1
      "timeout" rfl,
   (C9_characters_route_masks_errors "pub" "priv" 0
      (fun _ => .ok envProtocolError) none 20 0 503 "x" "y").2.2.2
      envProtocolError rfl (by decide)⟩

end MarvelBackend
